import Mathlib

/-!
Verification of the Shopify → Bitrix24 order reconciliation core.

This file shallowly embeds the relevant parts of the repository:

* `classifyBitrixError` and its keyword tables (src/src/lib/bitrix/client.js);
* `financialStatusToStageId` / `financialStatusToPaymentStatus`
  (src/src/lib/bitrix/config.js);
* `createDealWithRetry`, `handleOrderCreated`, `handleOrderUpdated`
  (src/pages/api/webhook/shopify.js).

Remote Bitrix calls are modelled by an explicit environment (oracle) giving
the outcome of each call, and each handler additionally returns the trace of
remote calls it issued, so that properties such as "no second create call"
or "a set-rows call with an empty list is issued" are statements about the
trace.  JavaScript values that may be absent or non-string are modelled by
an explicit `JSVal` type with JS truthiness; functions that can throw
return `Except`.
-/

namespace Spec2Proof

/-! ### String utilities: JS `String.prototype.includes` and `toLowerCase` -/

/-- Does `p` occur at the start of `l`?  (character-list version) -/
def startsWithChars : List Char → List Char → Bool
  | [], _ => true
  | _ :: _, [] => false
  | a :: as, b :: bs => a == b && startsWithChars as bs

/-- Does the pattern `p` occur anywhere inside `l`? -/
def containsChars (p : List Char) : List Char → Bool
  | [] => startsWithChars p []
  | c :: rest => startsWithChars p (c :: rest) || containsChars p rest

/-- JS `s.includes(pat)`. -/
def strIncludes (s pat : String) : Bool :=
  containsChars pat.toList s.toList

/-- JS `s.trim()`, written over the character list so that it evaluates
by kernel reduction. -/
def jsTrim (s : String) : String :=
  String.mk (((s.toList.dropWhile Char.isWhitespace).reverse.dropWhile
    Char.isWhitespace).reverse)

/-- JS `s.toLowerCase()` (ASCII case mapping, which is what the embedded
keyword matching relies on), written over the character list so that it
evaluates by kernel reduction. -/
def jsToLower (s : String) : String :=
  String.mk (s.toList.map Char.toLower)

/-! ### JS value model (for truthiness and non-string error fields) -/

/-- A JavaScript value, as far as the error classifier can observe one. -/
inductive JSVal where
  | vUndefined
  | vNull
  | vStr (s : String)
  | vNum (n : Int)
  | vBool (b : Bool)
  | vObj
deriving DecidableEq

/-- JS truthiness. -/
def JSVal.truthy : JSVal → Bool
  | .vUndefined => false
  | .vNull => false
  | .vStr s => !s.isEmpty
  | .vNum n => n != 0
  | .vBool b => b
  | .vObj => true

/-- JS `a || b`. -/
def jsOr (a b : JSVal) : JSVal :=
  if a.truthy then a else b

/-- JS `v.toLowerCase()`: defined only on strings, otherwise a `TypeError`
is thrown. -/
def jsToLowerCase : JSVal → Except String String
  | .vStr s => .ok (jsToLower s)
  | _ => .error "TypeError: toLowerCase is not a function"

/-- An absent (`undefined`) or string-valued field. -/
def optToJS : Option String → JSVal
  | none => .vUndefined
  | some s => .vStr s

/-! ### Error classifier (src/src/lib/bitrix/client.js, `classifyBitrixError`) -/

/-- The raw error payload the classifier receives: the `error` and
`error_description` fields of a Bitrix response, as JS values. -/
structure ErrPayload where
  error : JSVal
  error_description : JSVal
deriving DecidableEq

/-- Keyword table for VALIDATION errors, verbatim from the source. -/
def validationKeywords : List String :=
  ["mandatory", "required", "обязательное", "обязательное поле",
   "field is required", "поле обязательно", "must be filled",
   "invalid value", "неверное значение", "validation"]

/-- Keyword table for PERMISSION errors, verbatim from the source. -/
def permissionKeywords : List String :=
  ["permission", "access denied", "доступ запрещен", "недостаточно прав",
   "forbidden", "unauthorized", "access denied", "no permission"]

/-- Keyword table for DUPLICATE errors, verbatim from the source. -/
def duplicateKeywords : List String :=
  ["duplicate", "already exists", "уже существует", "уже есть",
   "duplicate entry", "повтор"]

/-- Keyword table for NETWORK errors, verbatim from the source. -/
def networkKeywords : List String :=
  ["timeout", "network", "connection", "econnrefused", "enotfound",
   "etimedout", "failed to fetch"]

/-- JS `keywords.some(keyword => errorMsg.includes(keyword))`. -/
def anyKw (ks : List String) (errorMsg : String) : Bool :=
  ks.any (fun k => strIncludes errorMsg k)

/-- The classification record returned by `classifyBitrixError`. -/
structure Classification where
  type : JSVal
  message : JSVal
  code : JSVal
  details : ErrPayload
deriving DecidableEq

/-- The keyword-matching core of `classifyBitrixError`: given the raw error
code, the lower-cased description, the original payload and the message
value, pick the error type by the fixed precedence order of the source. -/
def classifyCore (errorCode : JSVal) (errorMsg : String) (message : JSVal)
    (details : ErrPayload) : Classification :=
  let isValidationError := anyKw validationKeywords errorMsg
  let isPermissionError := anyKw permissionKeywords errorMsg
  let isDuplicateError := anyKw duplicateKeywords errorMsg
  let isNetworkError := anyKw networkKeywords errorMsg
  let errorType : JSVal :=
    if isValidationError then .vStr "VALIDATION"
    else if isPermissionError then .vStr "PERMISSION"
    else if isDuplicateError then .vStr "DUPLICATE"
    else if isNetworkError then .vStr "NETWORK"
    else if errorCode.truthy then errorCode
    else .vStr "UNKNOWN"
  ⟨errorType, message, errorCode, details⟩

/-- Source `classifyBitrixError(errorResponse)`: throws (`Except.error`) exactly
when the first truthy value of `error_description || error || ''` is not a
string, since the source immediately calls `.toLowerCase()` on it. -/
def classifyBitrixError (e : ErrPayload) : Except String Classification :=
  let errorCode := jsOr e.error (.vStr "")
  match jsToLowerCase (jsOr e.error_description (jsOr e.error (.vStr ""))) with
  | .error msg => .error msg
  | .ok errorDesc =>
    .ok (classifyCore errorCode errorDesc
      (jsOr e.error_description (jsOr e.error (.vStr "Unknown error"))) e)

/-- Payload with absent-or-string fields, as produced by parsing a Bitrix
JSON response. -/
def payloadOf (ec ed : Option String) : ErrPayload :=
  ⟨optToJS ec, optToJS ed⟩

/-! ### Stage / payment-status configuration (src/src/lib/bitrix/config.js) -/

/-- Source `BITRIX_CONFIG.STAGES`. -/
structure BitrixStages where
  PAID : String
  PENDING : String
  PREPARATION : String
  REFUNDED : String
  CANCELLED : String
  DEFAULT : String
deriving DecidableEq

/-- The `STAGES` table of `BITRIX_CONFIG`. -/
def BITRIX_CONFIG_STAGES : BitrixStages :=
  ⟨"WON", "NEW", "C2:PREPARATION", "LOSE", "LOSE", "NEW"⟩

/-- Source `BITRIX_CONFIG.CATEGORY_STOCK`. -/
def CATEGORY_STOCK : Nat := 2

/-- Source `BITRIX_CONFIG.SHIPPING_PRODUCT_ID`. -/
def SHIPPING_PRODUCT_ID : Nat := 3000

/-- Source `financialStatusToStageId(financialStatus)`: the source lower-cases the
status with `?.toLowerCase() || ''` and looks it up in a literal mapping
object, falling back to `BITRIX_CONFIG.STAGES.DEFAULT`.  (The unused
`categoryId` parameter of the source is omitted.) -/
def financialStatusToStageId (financialStatus : Option String) : String :=
  let status := (financialStatus.map jsToLower).getD ""
  match status with
  | "paid" => BITRIX_CONFIG_STAGES.PAID
  | "pending" => BITRIX_CONFIG_STAGES.PENDING
  | "refunded" => BITRIX_CONFIG_STAGES.REFUNDED
  | "cancelled" => BITRIX_CONFIG_STAGES.CANCELLED
  | "partially_paid" => BITRIX_CONFIG_STAGES.PENDING
  | "partially_refunded" => BITRIX_CONFIG_STAGES.PREPARATION
  | "voided" => BITRIX_CONFIG_STAGES.CANCELLED
  | _ => BITRIX_CONFIG_STAGES.DEFAULT

/-- Source `financialStatusToPaymentStatus(financialStatus)` (Bitrix enum ids:
"56" = Paid, "58" = Unpaid, "60" = 10% prepayment). -/
def financialStatusToPaymentStatus (financialStatus : Option String) : String :=
  let status := (financialStatus.map jsToLower).getD ""
  match status with
  | "paid" => "56"
  | "pending" => "58"
  | "partially_paid" => "60"
  | "refunded" => "58"
  | "partially_refunded" => "60"
  | "cancelled" => "58"
  | "voided" => "58"
  | _ => "58"

/-! ### Order model and field mapper -/

/-- A Shopify order line item, restricted to the fields the mapper reads. -/
structure LineItem where
  productId : Nat
  price : Int
  quantity : Nat
  currentQuantity : Nat
  discount : Int
deriving DecidableEq

/-- A Shopify order, restricted to the fields the webhook handlers and the
mapper read.  `shippingFee` stands for the first non-null of the source's
candidate shipping-fee fields. -/
structure ShopOrder where
  id : String
  name : String
  financial_status : Option String
  line_items : List LineItem
  shippingFee : Option Int
  total_price : Int
  paid_amount : Int
  deliveryMethod : Option String
  orderType : Option String
deriving DecidableEq

/-- The deal-field record built by the mapper (keys are the Bitrix field
names used in the source). -/
structure DealFields where
  TITLE : String
  OPPORTUNITY : Int
  STAGE_ID : String
  CATEGORY_ID : Nat
  UF_CRM_1742556489 : String
  UF_CRM_1739183959976 : String
  UF_CRM_1741634415367 : Int
  UF_CRM_1741634439258 : Int
  UF_CRM_67BEF8B2AA721 : Option Int
  UF_CRM_1739183302609 : Option String
  UF_CRM_1739183268662 : Option String
  CONTACT_ID : Option String
deriving DecidableEq

/-- A Bitrix product row. -/
structure ProductRow where
  PRODUCT_ID : Nat
  PRICE : Int
  QUANTITY : Nat
deriving DecidableEq

/-- Modelled from the spec: `mapShopifyOrderToBitrixDeal` lives in
`src/lib/bitrix/orderMapper.js`, which is not under `src/`; §4.3 of the
spec specifies its contract, which this definition follows: the monetary
amount is the sum over line items with positive current quantity of
`unitPrice × currentQuantity − discount` plus the shipping fee; stage and
payment status are derived from the financial status via the fixed enum
maps; line rows are emitted only for items with positive current quantity,
with a shipping row appended exactly when a nonzero shipping fee exists. -/
def mapShopifyOrderToBitrixDeal (o : ShopOrder) : DealFields × List ProductRow :=
  let active := o.line_items.filter (fun it => 0 < it.currentQuantity)
  let shipping := o.shippingFee.getD 0
  let itemsAmount := (active.map
    (fun it => it.price * (it.currentQuantity : Int) - it.discount)).sum
  let rows := active.map (fun it => ProductRow.mk it.productId it.price it.currentQuantity)
    ++ (if shipping ≠ 0 then [ProductRow.mk SHIPPING_PRODUCT_ID shipping 1] else [])
  (⟨o.name, itemsAmount + shipping,
    financialStatusToStageId o.financial_status,
    CATEGORY_STOCK,
    o.id,
    financialStatusToPaymentStatus o.financial_status,
    o.total_price,
    o.paid_amount,
    o.shippingFee,
    o.deliveryMethod,
    o.orderType,
    none⟩, rows)

/-! ### Bitrix responses, thrown errors, and the remote-call trace -/

/-- A parsed Bitrix JSON response as `createDealWithRetry` receives it
from `callBitrix` (deal id in `result` on success, otherwise `error` /
`error_description`). -/
structure BxResp where
  result : Option String
  error : Option String
  error_description : Option String
deriving DecidableEq

/-- A thrown JS error, with the ad hoc `errorType` / `errorDetails`
fields the source attaches. -/
structure JsError where
  message : String
  errorType : Option String
  errorDetails : Option BxResp
deriving DecidableEq

/-- JS `a || b` on absent-or-string values (empty string is falsy). -/
def jsOrStr (a b : Option String) : Option String :=
  match a with
  | some s => if s.isEmpty then b else some s
  | none => b

/-- JS truthiness of an absent-or-string value. -/
def optStrTruthy : Option String → Bool
  | some s => !s.isEmpty
  | none => false

/-- The string content of a JS value (used where the source interpolates a
value known to be a string into a message). -/
def strOfJS : JSVal → String
  | .vStr s => s
  | _ => ""

/-- JS `(errorResponse.error_description || errorResponse.error || '')` for a
parsed response. -/
def respDescText (r : BxResp) : String :=
  (jsOrStr r.error_description (jsOrStr r.error (some ""))).getD ""

/-- The lower-cased description `classifyBitrixError` matches keywords
against, for a parsed response. -/
def respErrorMsg (r : BxResp) : String :=
  jsToLower (respDescText r)

/-- Function `classifyBitrixError` specialised to a parsed response (whose error
fields are absent or strings, so the classifier cannot throw). -/
def classifyResp (r : BxResp) : Classification :=
  classifyCore (optToJS (jsOrStr r.error (some ""))) (respErrorMsg r)
    (optToJS (jsOrStr r.error_description (jsOrStr r.error (some "Unknown error"))))
    ⟨optToJS r.error, optToJS r.error_description⟩

/-- Model of `JSON.stringify(dealAddResp)`, adequate for the keyword
containment checks performed on it: it embeds the raw field texts. -/
def stringifyResp (r : BxResp) : String :=
  "result:" ++ r.result.getD "" ++ ",error:" ++ r.error.getD ""
    ++ ",error_description:" ++ r.error_description.getD ""

/-- The generic error thrown at the end of the try block
(`Failed to create deal: ${JSON.stringify(dealAddResp)}`). -/
def genericErr (r : BxResp) : JsError :=
  ⟨"Failed to create deal: " ++ stringifyResp r, none, none⟩

/-- A field value inside an update payload. -/
inductive FieldVal where
  | fInt (n : Int)
  | fStr (s : String)
deriving DecidableEq

/-- One remote Bitrix call, as recorded in a handler's trace. -/
inductive BxCall where
  | dealAdd (fields : DealFields)
  | dealList (filterField : String) (value : String)
  | dealGet (id : String)
  | dealUpdate (id : String) (fields : List (String × FieldVal))
  | productRowsSet (id : String) (rows : List ProductRow)
deriving DecidableEq

/-- Number of `crm.deal.add` calls in a trace (= number of create
attempts). -/
def countAdds (tr : List BxCall) : Nat :=
  (tr.filter (fun c => match c with | .dealAdd _ => true | _ => false)).length

/-- A deal as returned by `crm.deal.list` / `crm.deal.get`. -/
structure Deal where
  ID : String
  TITLE : String
  OPPORTUNITY : String
  STAGE_ID : String
deriving DecidableEq

/-- The result object of `createDealWithRetry` on success. -/
structure CreateResult where
  success : Bool
  dealId : String
  wasDuplicate : Bool
  attempt : Nat
  verifiedDeal : Option Deal
deriving DecidableEq

/-- Environment (oracle) for `createDealWithRetry`: the outcome of the
n-th `crm.deal.add` call (1-based attempt number), the result of the n-th
duplicate-resolution `crm.deal.list` lookup (0-based), and the
`crm.deal.get` verification read. -/
structure CreateEnv where
  add : Nat → Sum BxResp JsError
  dupLookup : Nat → List Deal
  getDeal : String → Option Deal

/-- Outcome of one iteration of the retry loop: either finish with a
result/error, or continue with the next attempt (carrying the lookup
counter forward).  Both carry the calls issued during the iteration. -/
inductive StepOut where
  | done (r : Except JsError CreateResult) (calls : List BxCall)
  | next (lk : Nat) (calls : List BxCall)

/-- The calls issued during one iteration of the retry loop. -/
def stepCalls : StepOut → List BxCall
  | .done _ calls => calls
  | .next _ calls => calls

/-- Evaluation of `const errorType = error.errorType || 'UNKNOWN'`
(line 208): the ad hoc error type of a thrown error, defaulting to
UNKNOWN when the field is absent or empty. -/
def errTypeOf (e : JsError) : String :=
  match e.errorType with
  | some s => if s.isEmpty then "UNKNOWN" else s
  | none => "UNKNOWN"

/-- Evaluation of `const isDuplicateInMessage = errorMsg.includes(...)...`
(lines 222–226): does the lower-cased message carry one of the three
duplicate indicators the catch block checks? -/
def isDupMessage (e : JsError) : Bool :=
  strIncludes (jsToLower e.message) "duplicate"
    || strIncludes (jsToLower e.message) "already exists"
    || strIncludes (jsToLower e.message) "уже существует"

/-- The catch block of `createDealWithRetry` (lines 207–271 of
src/pages/api/webhook/shopify.js): VALIDATION/PERMISSION rethrow
immediately; a duplicate-indicating message triggers a lookup that can
resolve to success with `wasDuplicate: true`; otherwise the error is
rethrown on the last attempt or the loop continues. -/
def catchStep (env : CreateEnv) (shopifyOrderId : String) (maxRetries attempt lk : Nat)
    (e : JsError) (calls : List BxCall) : StepOut :=
  let errorType := errTypeOf e
  if errorType = "VALIDATION" ∨ errorType = "PERMISSION" then
    .done (.error e) calls
  else
    if isDupMessage e then
      let calls1 := calls ++ [BxCall.dealList "UF_CRM_1742556489" shopifyOrderId]
      match env.dupLookup lk with
      | d :: _ =>
        .done (.ok ⟨true, d.ID, true, attempt, env.getDeal d.ID⟩)
          (calls1 ++ [BxCall.dealGet d.ID])
      | [] =>
        if attempt = maxRetries then .done (.error e) calls1
        else .next (lk + 1) calls1
    else
      if attempt = maxRetries then .done (.error e) calls
      else .next lk calls

/-- One attempt of `createDealWithRetry`'s try block (lines 93–205):
create, on in-band success verify and return; on an in-band error classify
it and branch on DUPLICATE (lookup), VALIDATION and PERMISSION (throw a
typed error into the catch block); any other shape throws the generic
error into the catch block. -/
def attemptStep (env : CreateEnv) (dealFields : DealFields) (shopifyOrderId : String)
    (maxRetries attempt lk : Nat) : StepOut :=
  match env.add attempt with
  | .inr e => catchStep env shopifyOrderId maxRetries attempt lk e
      [BxCall.dealAdd dealFields]
  | .inl r =>
    let calls0 := [BxCall.dealAdd dealFields]
    if optStrTruthy r.result then
      let dealId := r.result.getD ""
      .done (.ok ⟨true, dealId, false, attempt, env.getDeal dealId⟩)
        (calls0 ++ [BxCall.dealGet dealId])
    else if optStrTruthy r.error then
      let errorInfo := classifyResp r
      if errorInfo.type = JSVal.vStr "DUPLICATE" then
        let calls1 := calls0 ++ [BxCall.dealList "UF_CRM_1742556489" shopifyOrderId]
        match env.dupLookup lk with
        | d :: _ =>
          .done (.ok ⟨true, d.ID, true, attempt, env.getDeal d.ID⟩)
            (calls1 ++ [BxCall.dealGet d.ID])
        | [] =>
          catchStep env shopifyOrderId maxRetries attempt (lk + 1) (genericErr r) calls1
      else if errorInfo.type = JSVal.vStr "VALIDATION" then
        catchStep env shopifyOrderId maxRetries attempt lk
          ⟨"Validation error: " ++ strOfJS errorInfo.message, some "VALIDATION", some r⟩
          calls0
      else if errorInfo.type = JSVal.vStr "PERMISSION" then
        catchStep env shopifyOrderId maxRetries attempt lk
          ⟨"Permission error: " ++ strOfJS errorInfo.message, some "PERMISSION", some r⟩
          calls0
      else
        catchStep env shopifyOrderId maxRetries attempt lk (genericErr r) calls0
    else
      catchStep env shopifyOrderId maxRetries attempt lk (genericErr r) calls0

/-- The attempt loop of `createDealWithRetry`, with the number of
remaining attempts as fuel (the source's `for` loop runs `attempt` from 1
to `maxRetries`; falling off the loop end throws the final error of line
275). -/
def createLoop (env : CreateEnv) (dealFields : DealFields) (shopifyOrderId : String)
    (maxRetries : Nat) :
    Nat → Nat → Nat → Except JsError CreateResult × List BxCall
  | 0, _, _ =>
    (.error ⟨"Failed to create deal after " ++ toString maxRetries ++ " attempts",
      none, none⟩, [])
  | n + 1, attempt, lk =>
    match attemptStep env dealFields shopifyOrderId maxRetries attempt lk with
    | .done r calls => (r, calls)
    | .next lk1 calls =>
      let rest := createLoop env dealFields shopifyOrderId maxRetries n (attempt + 1) lk1
      (rest.1, calls ++ rest.2)

/-- Source `createDealWithRetry(dealFields, shopifyOrderId, maxRetries)`:
returns the result (or the propagated error) together with the trace of
remote calls issued. -/
def createDealWithRetry (env : CreateEnv) (dealFields : DealFields)
    (shopifyOrderId : String) (maxRetries : Nat) :
    Except JsError CreateResult × List BxCall :=
  createLoop env dealFields shopifyOrderId maxRetries maxRetries 1 0

/-! ### Webhook handlers (src/pages/api/webhook/shopify.js) -/

/-- Environment (oracle) for the two order handlers: the outcome of the
existing-deal lookup in `handleOrderCreated` (caught on throw), the lookup
in `handleOrderUpdated` (uncaught on throw), the contact upsert (caught),
the `crm.deal.update` call (uncaught), and the `createDealWithRetry`
oracle pieces. -/
structure WebEnv where
  createLookup : Except JsError (List Deal)
  updLookup : Except JsError (List Deal)
  contact : Except JsError (Option String)
  update : Except JsError Unit
  add : Nat → Sum BxResp JsError
  dupLookup : Nat → List Deal
  getDeal : String → Option Deal

/-- The `CreateEnv` slice of a `WebEnv`. -/
def WebEnv.toCreateEnv (env : WebEnv) : CreateEnv :=
  ⟨env.add, env.dupLookup, env.getDeal⟩

/-- Source `upsertBitrixContact` result handling: on success with a contact id the
handler sets `CONTACT_ID`; a thrown error is caught and ignored
(non-blocking). -/
def applyContact (contact : Except JsError (Option String)) (f : DealFields) : DealFields :=
  match contact with
  | .ok (some cid) => { f with CONTACT_ID := some cid }
  | _ => f

/-- The full deal-field payload as a key/value list, in the construction
order of the mapper's object literal (used by the `crm.deal.update` call of
`handleOrderCreated`'s duplicate branch, which sends all mapped fields). -/
def dealFieldsToList (f : DealFields) : List (String × FieldVal) :=
  [("TITLE", .fStr f.TITLE),
   ("OPPORTUNITY", .fInt f.OPPORTUNITY),
   ("STAGE_ID", .fStr f.STAGE_ID),
   ("CATEGORY_ID", .fInt (f.CATEGORY_ID : Int)),
   ("UF_CRM_1742556489", .fStr f.UF_CRM_1742556489),
   ("UF_CRM_1739183959976", .fStr f.UF_CRM_1739183959976),
   ("UF_CRM_1741634415367", .fInt f.UF_CRM_1741634415367),
   ("UF_CRM_1741634439258", .fInt f.UF_CRM_1741634439258)]
  ++ (match f.UF_CRM_67BEF8B2AA721 with
      | some v => [("UF_CRM_67BEF8B2AA721", FieldVal.fInt v)]
      | none => [])
  ++ (match f.UF_CRM_1739183302609 with
      | some v => [("UF_CRM_1739183302609", FieldVal.fStr v)]
      | none => [])
  ++ (match f.UF_CRM_1739183268662 with
      | some v => [("UF_CRM_1739183268662", FieldVal.fStr v)]
      | none => [])
  ++ (match f.CONTACT_ID with
      | some v => [("CONTACT_ID", FieldVal.fStr v)]
      | none => [])

/-- The update payload built by `handleOrderUpdated` (lines 526–547):
amount, stage, payment status, order total and paid amount always; the
delivery price when not `undefined`; the delivery method and order type
when truthy.  `CATEGORY_ID` and `TITLE` are deliberately not included. -/
def buildUpdateFields (mf : DealFields) : List (String × FieldVal) :=
  [("OPPORTUNITY", .fInt mf.OPPORTUNITY),
   ("STAGE_ID", .fStr mf.STAGE_ID),
   ("UF_CRM_1739183959976", .fStr mf.UF_CRM_1739183959976),
   ("UF_CRM_1741634415367", .fInt mf.UF_CRM_1741634415367),
   ("UF_CRM_1741634439258", .fInt mf.UF_CRM_1741634439258)]
  ++ (match mf.UF_CRM_67BEF8B2AA721 with
      | some v => [("UF_CRM_67BEF8B2AA721", FieldVal.fInt v)]
      | none => [])
  ++ (if optStrTruthy mf.UF_CRM_1739183302609 then
        [("UF_CRM_1739183302609", FieldVal.fStr (mf.UF_CRM_1739183302609.getD ""))]
      else [])
  ++ (if optStrTruthy mf.UF_CRM_1739183268662 then
        [("UF_CRM_1739183268662", FieldVal.fStr (mf.UF_CRM_1739183268662.getD ""))]
      else [])

/-- Source lines 383–470 of `handleOrderCreated(order)`: the creation
path.  Map, validate (a missing TITLE is the only hard validation
error), upsert the contact (caught), create with retry, set product
rows when nonempty (caught), and return the new deal's id.  The trace
does not include the initial duplicate-prevention lookup, which the
caller prepends. -/
def createNewDeal (env : WebEnv) (order : ShopOrder) :
    Except JsError String × List BxCall :=
  let mapped := mapShopifyOrderToBitrixDeal order
  let productRows := mapped.2
  if (jsTrim mapped.1.TITLE).isEmpty then
    (.error ⟨"Validation failed: TITLE is required", none, none⟩, [])
  else
    let dealFields := applyContact env.contact mapped.1
    let created := createDealWithRetry env.toCreateEnv dealFields order.id 3
    match created.1 with
    | .error e => (.error e, created.2)
    | .ok res =>
      if res.success then
        let prodCalls := if productRows.isEmpty then []
          else [BxCall.productRowsSet res.dealId productRows]
        (.ok res.dealId, created.2 ++ prodCalls)
      else
        (.error ⟨"Failed to create deal after retries", none, none⟩, created.2)

/-- Source `handleOrderCreated(order)` (lines 282–471): duplicate-prevention
lookup first; if a deal exists, update it (contact upsert is caught; the
verification read and the product-row write are caught) and return its
id.  The whole found-deal branch sits inside the try whose catch at line
378 swallows any thrown error and falls through to the creation path, so
a thrown `crm.deal.update` does NOT propagate: the handler continues
with `createNewDeal` — issuing a create call although a deal exists.
When the lookup finds nothing or itself throws, the creation path runs. -/
def handleOrderCreated (env : WebEnv) (order : ShopOrder) :
    Except JsError String × List BxCall :=
  let shopifyOrderId := order.id
  let lookCall := [BxCall.dealList "UF_CRM_1742556489" shopifyOrderId]
  match env.createLookup with
  | .ok (d :: _) =>
    let mapped := mapShopifyOrderToBitrixDeal order
    let dealFields := applyContact env.contact mapped.1
    let productRows := mapped.2
    (match env.update with
     | .error _ =>
       let fallThrough := createNewDeal env order
       (fallThrough.1,
        lookCall ++ [BxCall.dealUpdate d.ID (dealFieldsToList dealFields)]
          ++ fallThrough.2)
     | .ok _ =>
       let prodCalls := if productRows.isEmpty then []
         else [BxCall.productRowsSet d.ID productRows]
       (.ok d.ID,
        lookCall ++ [BxCall.dealUpdate d.ID (dealFieldsToList dealFields),
          BxCall.dealGet d.ID] ++ prodCalls))
  | _ =>
    let fallThrough := createNewDeal env order
    (fallThrough.1, lookCall ++ fallThrough.2)

/-- Source `handleOrderUpdated(order)` (lines 476–636): look the deal up by the
cross-reference field; when absent fall back to `handleOrderCreated`;
otherwise update the mapped subset of fields, re-read the deal, and always
re-set the product rows — explicitly clearing them with an empty list when
the fresh mapping yields no rows. -/
def handleOrderUpdated (env : WebEnv) (order : ShopOrder) :
    Except JsError String × List BxCall :=
  let shopifyOrderId := order.id
  let lookCall := [BxCall.dealList "UF_CRM_1742556489" shopifyOrderId]
  match env.updLookup with
  | .error e => (.error e, lookCall)
  | .ok [] =>
    let created := handleOrderCreated env order
    (created.1, lookCall ++ created.2)
  | .ok (deal :: _) =>
    let mapped := mapShopifyOrderToBitrixDeal order
    let fields := buildUpdateFields mapped.1
    (match env.update with
     | .error e => (.error e, lookCall ++ [BxCall.dealUpdate deal.ID fields])
     | .ok _ =>
       let productRows := mapped.2
       let rowsCall := if productRows.isEmpty then
           [BxCall.productRowsSet deal.ID []]
         else
           [BxCall.productRowsSet deal.ID productRows]
       (.ok deal.ID,
        lookCall ++ [BxCall.dealUpdate deal.ID fields, BxCall.dealGet deal.ID]
          ++ rowsCall))

/-! ### Spec-side restatement of the classifier's type selection -/

/-- The error-type selection exactly as the spec words it (for the
refinement claim about `classifyBitrixError`): keyword matching on the
lower-cased description in the fixed precedence order VALIDATION,
PERMISSION, DUPLICATE, NETWORK, first match winning; otherwise the raw
error code when present and non-empty, else UNKNOWN. -/
def classifySpecType (ec ed : Option String) : JSVal :=
  let desc := jsToLower ((jsOrStr ed (jsOrStr ec (some ""))).getD "")
  if anyKw validationKeywords desc then .vStr "VALIDATION"
  else if anyKw permissionKeywords desc then .vStr "PERMISSION"
  else if anyKw duplicateKeywords desc then .vStr "DUPLICATE"
  else if anyKw networkKeywords desc then .vStr "NETWORK"
  else
    match ec with
    | some c => if c.isEmpty then .vStr "UNKNOWN" else .vStr c
    | none => .vStr "UNKNOWN"

/-! ### Concrete fixtures used by the witness theorems -/

/-- A line item: unit price 20, one unit, still active. -/
def wItem : LineItem := ⟨101, 20, 1, 1, 0⟩

/-- A paid order with one active line item. -/
def wOrder : ShopOrder := ⟨"100", "#100", some "paid", [wItem], none, 20, 20, none, none⟩

/-- A fully refunded order: its only item has current quantity 0 and
there is no shipping fee. -/
def wOrderEmpty : ShopOrder := ⟨"100", "#100", some "refunded", [⟨101, 20, 2, 0, 0⟩], none, 0, 0, none, none⟩

/-- An existing Bitrix deal. -/
def wDeal : Deal := ⟨"500", "#100", "20", "NEW"⟩

/-- An in-band duplicate error response. -/
def wRespDup : BxResp := ⟨none, some "ERROR_CORE", some "Duplicate entry for order"⟩

/-- An in-band validation error response. -/
def wRespVal : BxResp := ⟨none, some "ERROR_CORE", some "Field TITLE is mandatory"⟩

/-- An in-band permission error response. -/
def wRespPerm : BxResp := ⟨none, some "ERROR_CORE", some "Access denied for user"⟩

/-- A thrown network error, as `callBitrix` produces it. -/
def wNetErr : JsError := ⟨"Bitrix API error (NETWORK): timeout", some "NETWORK", none⟩

/-- A thrown duplicate error, as `callBitrix` produces it. -/
def wDupErr : JsError := ⟨"Bitrix API error (DUPLICATE): Duplicate entry", some "DUPLICATE", none⟩

/-- The mapped deal fields of the fixture order. -/
def wFields : DealFields := (mapShopifyOrderToBitrixDeal wOrder).1

/-- Handler environment in which the initial lookup finds `wDeal` and all
writes succeed. -/
def wEnvFound : WebEnv :=
  ⟨.ok [wDeal], .ok [wDeal], .ok none, .ok (),
   fun _ => .inl ⟨some "600", none, none⟩, fun _ => [], fun _ => none⟩

/-- Handler environment in which both lookups find nothing and the create
call succeeds with deal id 600. -/
def wEnvNotFound : WebEnv :=
  ⟨.ok [], .ok [], .ok none, .ok (),
   fun _ => .inl ⟨some "600", none, none⟩, fun _ => [], fun _ => none⟩

/-- Retry environment: every create attempt throws a network error. -/
def wCEnvNet : CreateEnv := ⟨fun _ => .inr wNetErr, fun _ => [], fun _ => none⟩

/-- Retry environment: the create call reports a validation error. -/
def wCEnvVal : CreateEnv := ⟨fun _ => .inl wRespVal, fun _ => [], fun _ => none⟩

/-- Retry environment: the create call reports a permission error. -/
def wCEnvPerm : CreateEnv := ⟨fun _ => .inl wRespPerm, fun _ => [], fun _ => none⟩

/-- Retry environment: in-band duplicate; the first lookup already sees
the existing deal. -/
def wCEnvDupA : CreateEnv := ⟨fun _ => .inl wRespDup, fun _ => [wDeal], fun _ => none⟩

/-- Retry environment: in-band duplicate; the deal becomes visible only on
the second lookup. -/
def wCEnvDupB : CreateEnv :=
  ⟨fun _ => .inl wRespDup, fun n => if n = 1 then [wDeal] else [], fun _ => none⟩

/-- Retry environment: the create call throws a DUPLICATE-typed error. -/
def wCEnvDupC : CreateEnv := ⟨fun _ => .inr wDupErr, fun _ => [wDeal], fun _ => none⟩

/-- A thrown error for the `crm.deal.update` call. -/
def wUpdErr : JsError := ⟨"Bitrix API error (NETWORK): connection reset", some "NETWORK", none⟩

/-- Handler environment in which the initial lookup finds `wDeal` but the
`crm.deal.update` call throws; the subsequent create call succeeds with
deal id 601. -/
def wEnvUpdFail : WebEnv :=
  ⟨.ok [wDeal], .ok [wDeal], .ok none, .error wUpdErr,
   fun _ => .inl ⟨some "601", none, none⟩, fun _ => [], fun _ => none⟩

/-! ## Theorems for the claims -/

/-- C9: `financialStatusToStageId` maps the financial status
case-insensitively: 'paid' to the won stage WON; 'pending' and
'partially_paid' to the new stage NEW; 'partially_refunded' to the
intermediate in-progress preparation stage C2:PREPARATION; 'refunded',
'cancelled' and 'voided' to the lost stage LOSE; every other or missing
status maps to the default NEW stage. -/
theorem financialStatusToStageId_spec :
    (∀ s, jsToLower s = "paid" → financialStatusToStageId (some s) = "WON") ∧
    (∀ s, jsToLower s = "pending" → financialStatusToStageId (some s) = "NEW") ∧
    (∀ s, jsToLower s = "partially_paid" → financialStatusToStageId (some s) = "NEW") ∧
    (∀ s, jsToLower s = "partially_refunded" →
      financialStatusToStageId (some s) = "C2:PREPARATION") ∧
    (∀ s, jsToLower s = "refunded" → financialStatusToStageId (some s) = "LOSE") ∧
    (∀ s, jsToLower s = "cancelled" → financialStatusToStageId (some s) = "LOSE") ∧
    (∀ s, jsToLower s = "voided" → financialStatusToStageId (some s) = "LOSE") ∧
    financialStatusToStageId none = "NEW" ∧
    (∀ s, jsToLower s ∉ (["paid", "pending", "refunded", "cancelled",
        "partially_paid", "partially_refunded", "voided"] : List String) →
      financialStatusToStageId (some s) = "NEW") := by
  refine ⟨fun s hs => by simp [financialStatusToStageId, hs, BITRIX_CONFIG_STAGES],
    fun s hs => by simp [financialStatusToStageId, hs, BITRIX_CONFIG_STAGES],
    fun s hs => by simp [financialStatusToStageId, hs, BITRIX_CONFIG_STAGES],
    fun s hs => by simp [financialStatusToStageId, hs, BITRIX_CONFIG_STAGES],
    fun s hs => by simp [financialStatusToStageId, hs, BITRIX_CONFIG_STAGES],
    fun s hs => by simp [financialStatusToStageId, hs, BITRIX_CONFIG_STAGES],
    fun s hs => by simp [financialStatusToStageId, hs, BITRIX_CONFIG_STAGES],
    rfl, ?_⟩
  intro s hs
  simp only [financialStatusToStageId, Option.map_some', Option.getD_some]
  generalize jsToLower s = t at hs
  split
  all_goals simp_all [BITRIX_CONFIG_STAGES]

/-- Witness for C9: the mapping evaluated at concrete statuses, including
upper-case variants and an unmapped status. -/
theorem financialStatusToStageId_spec_witness :
    financialStatusToStageId (some "PAID") = "WON" ∧
    financialStatusToStageId (some "Pending") = "NEW" ∧
    financialStatusToStageId (some "partially_refunded") = "C2:PREPARATION" ∧
    financialStatusToStageId (some "VOIDED") = "LOSE" ∧
    financialStatusToStageId (some "authorized") = "NEW" :=
  ⟨financialStatusToStageId_spec.1 "PAID" (by decide),
   financialStatusToStageId_spec.2.1 "Pending" (by decide),
   financialStatusToStageId_spec.2.2.2.1 "partially_refunded" (by decide),
   financialStatusToStageId_spec.2.2.2.2.2.2.1 "VOIDED" (by decide),
   financialStatusToStageId_spec.2.2.2.2.2.2.2.2 "authorized" (by decide)⟩

/-- Helper: on payloads with absent-or-string error fields the classifier
cannot throw, and its result is `classifyCore` applied to the resolved
error code, lower-cased description and message. -/
theorem classifyBitrixError_payloadOf (ec ed : Option String) :
    classifyBitrixError (payloadOf ec ed) =
      .ok (classifyCore (optToJS (jsOrStr ec (some "")))
        (jsToLower ((jsOrStr ed (jsOrStr ec (some ""))).getD ""))
        (optToJS (jsOrStr ed (jsOrStr ec (some "Unknown error"))))
        (payloadOf ec ed)) := by
  cases ec <;> cases ed <;>
    simp only [classifyBitrixError, payloadOf, optToJS, jsOr, jsOrStr, jsToLowerCase,
      JSVal.truthy, Option.getD_some, Option.getD_none] <;>
    split_ifs <;>
    simp_all [jsToLowerCase, optToJS]

/-- C7: for every error payload (with the absent-or-string error fields a
parsed Bitrix response has), `classifyBitrixError` returns a
classification whose kind is selected by keyword matching on the
lower-cased description in the fixed precedence order
VALIDATION-keywords, PERMISSION-keywords, DUPLICATE-keywords,
NETWORK-keywords, first match winning; when no keyword set matches, the
type is the raw error code when present and non-empty, else UNKNOWN
(`classifySpecType` restates exactly this selection in the spec's
words). -/
theorem classifyBitrixError_precedence :
    ∀ ec ed : Option String, ∃ cl : Classification,
      classifyBitrixError (payloadOf ec ed) = .ok cl ∧
      cl.type = classifySpecType ec ed := by
  intro ec ed
  refine ⟨_, classifyBitrixError_payloadOf ec ed, ?_⟩
  simp only [classifyCore, classifySpecType]
  have h0 : ("" : String).isEmpty = true := rfl
  cases ec with
  | none => simp [jsOrStr, optToJS, JSVal.truthy, h0]
  | some c =>
    by_cases hc : c.isEmpty <;>
      simp [jsOrStr, optToJS, JSVal.truthy, hc, h0]

/-- C8, counterexample: a payload whose `error_description` field holds
the (truthy, non-string) number 500 makes `classifyBitrixError` throw a
TypeError from `.toLowerCase()` instead of returning a classification. -/
theorem classifyBitrixError_nonstring_throws :
    classifyBitrixError ⟨JSVal.vNull, JSVal.vNum 500⟩ =
      .error "TypeError: toLowerCase is not a function" := rfl

/-- C8, amended: `classifyBitrixError` returns a classification without
throwing for every payload whose `error` and `error_description` fields
are absent, null or strings (rather than for arbitrary malformed fields),
and an empty payload defaults to kind UNKNOWN. -/
theorem classifyBitrixError_total_on_stringish :
    (∀ e : ErrPayload,
      (e.error = .vUndefined ∨ e.error = .vNull ∨ ∃ s, e.error = .vStr s) →
      (e.error_description = .vUndefined ∨ e.error_description = .vNull ∨
        ∃ s, e.error_description = .vStr s) →
      ∃ cl, classifyBitrixError e = .ok cl) ∧
    (∃ cl, classifyBitrixError ⟨.vUndefined, .vUndefined⟩ = .ok cl ∧
      cl.type = .vStr "UNKNOWN") := by
  have key : ∀ (v : JSVal), (v = .vUndefined ∨ v = .vNull ∨ ∃ s, v = .vStr s) →
      ∀ (w : JSVal), (∃ s, w = .vStr s) → ∃ s, jsOr v w = .vStr s := by
    rintro v (rfl | rfl | ⟨s, rfl⟩) w ⟨t, rfl⟩
    · exact ⟨t, rfl⟩
    · exact ⟨t, rfl⟩
    · by_cases hs : s.isEmpty
      · exact ⟨t, by simp [jsOr, JSVal.truthy, hs]⟩
      · exact ⟨s, by simp [jsOr, JSVal.truthy, hs]⟩
  constructor
  · rintro ⟨e1, e2⟩ h1 h2
    obtain ⟨u, hu⟩ := key e1 h1 (.vStr "") ⟨"", rfl⟩
    obtain ⟨t, ht⟩ := key e2 h2 _ ⟨u, hu⟩
    have hok : classifyBitrixError ⟨e1, e2⟩ =
        .ok (classifyCore (jsOr e1 (.vStr "")) (jsToLower t)
          (jsOr e2 (jsOr e1 (.vStr "Unknown error"))) ⟨e1, e2⟩) := by
      simp [classifyBitrixError, ht, jsToLowerCase]
    exact ⟨_, hok⟩
  · exact ⟨_, rfl, by decide⟩

/-- Witness for the amended C8 at a concrete payload with a null `error`
field and a string description. -/
theorem classifyBitrixError_total_on_stringish_witness :
    ∃ cl, classifyBitrixError ⟨JSVal.vNull, JSVal.vStr "boom"⟩ = .ok cl :=
  classifyBitrixError_total_on_stringish.1 ⟨JSVal.vNull, JSVal.vStr "boom"⟩
    (Or.inr (Or.inl rfl)) (Or.inr (Or.inr ⟨"boom", rfl⟩))

/-- Unfolding lemma: the retry loop with no remaining attempts. -/
theorem createLoop_zero (env : CreateEnv) (f : DealFields) (oid : String) (m a lk : Nat) :
    createLoop env f oid m 0 a lk =
      (.error ⟨"Failed to create deal after " ++ toString m ++ " attempts", none, none⟩,
        []) := rfl

/-- Unfolding lemma: the retry loop with one more remaining attempt. -/
theorem createLoop_succ (env : CreateEnv) (f : DealFields) (oid : String) (m n a lk : Nat) :
    createLoop env f oid m (n + 1) a lk =
      match attemptStep env f oid m a lk with
      | .done r calls => (r, calls)
      | .next lk1 calls =>
        ((createLoop env f oid m n (a + 1) lk1).1,
          calls ++ (createLoop env f oid m n (a + 1) lk1).2) := rfl

/-- C3: a remote create call that throws a NETWORK-classified (retryable)
error on every attempt makes `createDealWithRetry` perform exactly 3
attempts and then propagate that error to its caller. -/
theorem createDealWithRetry_network_three_attempts :
    ∀ (env : CreateEnv) (fields : DealFields) (oid : String) (e : JsError),
      e.errorType = some "NETWORK" →
      (∀ n, env.add n = .inr e) →
      strIncludes (jsToLower e.message) "duplicate" = false →
      strIncludes (jsToLower e.message) "already exists" = false →
      strIncludes (jsToLower e.message) "уже существует" = false →
      (createDealWithRetry env fields oid 3).1 = .error e ∧
      countAdds (createDealWithRetry env fields oid 3).2 = 3 := by
  intro env fields oid e hty hadd h1 h2 h3
  have hemp : ("NETWORK" : String).isEmpty = false := rfl
  have hne : ¬(("NETWORK" : String) = "VALIDATION" ∨ ("NETWORK" : String) = "PERMISSION") := by
    decide
  have hstep : ∀ a lk, attemptStep env fields oid 3 a lk =
      (if a = 3 then .done (.error e) [BxCall.dealAdd fields]
       else .next lk [BxCall.dealAdd fields]) := by
    intro a lk
    have het : errTypeOf e = "NETWORK" := by simp [errTypeOf, hty, hemp]
    have hdm : isDupMessage e = false := by simp [isDupMessage, h1, h2, h3]
    simp only [attemptStep, hadd, catchStep, het, hdm]
    simp [hne]
  have main : ∀ n a lk, a + n = 4 → 1 ≤ n →
      createLoop env fields oid 3 n a lk =
        (.error e, List.replicate n (BxCall.dealAdd fields)) := by
    intro n
    induction n with
    | zero => intro a lk hsum hpos; omega
    | succ k ih =>
      intro a lk hsum hpos
      rw [createLoop_succ, hstep a lk]
      by_cases ha : a = 3
      · have hk : k = 0 := by omega
        subst ha hk
        simp
      · have hk : 1 ≤ k := by omega
        rw [if_neg ha]
        simp only
        rw [ih (a + 1) lk (by omega) hk]
        simp [List.replicate_succ]
  have hkey := main 3 1 0 (by decide) (by decide)
  have hdef : createDealWithRetry env fields oid 3 = createLoop env fields oid 3 3 1 0 := rfl
  rw [hdef, hkey]
  refine ⟨rfl, ?_⟩
  simp [countAdds, List.replicate, List.filter]

/-- Witness for C3: the always-network-failing environment `wCEnvNet`
makes exactly 3 attempts and propagates `wNetErr`. -/
theorem createDealWithRetry_network_three_attempts_witness :
    (createDealWithRetry wCEnvNet wFields "100" 3).1 = .error wNetErr ∧
    countAdds (createDealWithRetry wCEnvNet wFields "100" 3).2 = 3 :=
  createDealWithRetry_network_three_attempts wCEnvNet wFields "100" wNetErr
    rfl (fun _ => rfl) (by decide) (by decide) (by decide)

/-- C4: a VALIDATION-classified error of the create call on the first
attempt makes `createDealWithRetry` stop after exactly 1 attempt and
throw an error whose `errorType` is 'VALIDATION' and whose `errorDetails`
carry the classified response; the same no-retry rule holds for
PERMISSION-classified errors. -/
theorem createDealWithRetry_validation_no_retry :
    (∀ (env : CreateEnv) (fields : DealFields) (oid : String) (r : BxResp),
      env.add 1 = .inl r →
      optStrTruthy r.result = false →
      optStrTruthy r.error = true →
      (classifyResp r).type = JSVal.vStr "VALIDATION" →
      (createDealWithRetry env fields oid 3).1 =
        .error ⟨"Validation error: " ++ strOfJS (classifyResp r).message,
          some "VALIDATION", some r⟩ ∧
      countAdds (createDealWithRetry env fields oid 3).2 = 1) ∧
    (∀ (env : CreateEnv) (fields : DealFields) (oid : String) (r : BxResp),
      env.add 1 = .inl r →
      optStrTruthy r.result = false →
      optStrTruthy r.error = true →
      (classifyResp r).type = JSVal.vStr "PERMISSION" →
      (createDealWithRetry env fields oid 3).1 =
        .error ⟨"Permission error: " ++ strOfJS (classifyResp r).message,
          some "PERMISSION", some r⟩ ∧
      countAdds (createDealWithRetry env fields oid 3).2 = 1) := by
  constructor
  · intro env fields oid r hadd hres herr hty
    have hd : JSVal.vStr "VALIDATION" ≠ JSVal.vStr "DUPLICATE" := by decide
    have he1 : ("VALIDATION" : String).isEmpty = false := rfl
    have hstep : attemptStep env fields oid 3 1 0 =
        .done (.error ⟨"Validation error: " ++ strOfJS (classifyResp r).message,
          some "VALIDATION", some r⟩) [BxCall.dealAdd fields] := by
      simp only [attemptStep, hadd]
      simp [hres, herr, hty, hd, catchStep, errTypeOf, he1]
    have hkey : createLoop env fields oid 3 3 1 0 =
        (.error ⟨"Validation error: " ++ strOfJS (classifyResp r).message,
          some "VALIDATION", some r⟩, [BxCall.dealAdd fields]) := by
      show createLoop env fields oid 3 (2 + 1) 1 0 = _
      rw [createLoop_succ, hstep]
    have hdef : createDealWithRetry env fields oid 3 = createLoop env fields oid 3 3 1 0 := rfl
    rw [hdef, hkey]
    exact ⟨rfl, by simp [countAdds]⟩
  · intro env fields oid r hadd hres herr hty
    have hd : JSVal.vStr "PERMISSION" ≠ JSVal.vStr "DUPLICATE" := by decide
    have hv : JSVal.vStr "PERMISSION" ≠ JSVal.vStr "VALIDATION" := by decide
    have he1 : ("PERMISSION" : String).isEmpty = false := rfl
    have he2 : ("PERMISSION" : String) ≠ "VALIDATION" := by decide
    have hstep : attemptStep env fields oid 3 1 0 =
        .done (.error ⟨"Permission error: " ++ strOfJS (classifyResp r).message,
          some "PERMISSION", some r⟩) [BxCall.dealAdd fields] := by
      simp only [attemptStep, hadd]
      simp [hres, herr, hty, hd, hv, catchStep, errTypeOf, he1, he2]
    have hkey : createLoop env fields oid 3 3 1 0 =
        (.error ⟨"Permission error: " ++ strOfJS (classifyResp r).message,
          some "PERMISSION", some r⟩, [BxCall.dealAdd fields]) := by
      show createLoop env fields oid 3 (2 + 1) 1 0 = _
      rw [createLoop_succ, hstep]
    have hdef : createDealWithRetry env fields oid 3 = createLoop env fields oid 3 3 1 0 := rfl
    rw [hdef, hkey]
    exact ⟨rfl, by simp [countAdds]⟩

/-- Witness for C4: the validation- and permission-failing environments
stop after one attempt with the typed error. -/
theorem createDealWithRetry_validation_no_retry_witness :
    ((createDealWithRetry wCEnvVal wFields "100" 3).1 =
      .error ⟨"Validation error: " ++ strOfJS (classifyResp wRespVal).message,
        some "VALIDATION", some wRespVal⟩ ∧
      countAdds (createDealWithRetry wCEnvVal wFields "100" 3).2 = 1) ∧
    ((createDealWithRetry wCEnvPerm wFields "100" 3).1 =
      .error ⟨"Permission error: " ++ strOfJS (classifyResp wRespPerm).message,
        some "PERMISSION", some wRespPerm⟩ ∧
      countAdds (createDealWithRetry wCEnvPerm wFields "100" 3).2 = 1) :=
  ⟨createDealWithRetry_validation_no_retry.1 wCEnvVal wFields "100" wRespVal
      rfl rfl rfl (by decide),
   createDealWithRetry_validation_no_retry.2 wCEnvPerm wFields "100" wRespPerm
      rfl rfl rfl (by decide)⟩

/-- C2: a DUPLICATE-classified failure of the create call is resolved to a
success instead of an error: (a) an in-band DUPLICATE error triggers a
lookup by the cross-reference field and, when an existing deal is found,
`createDealWithRetry` returns success carrying the found deal's id and
`wasDuplicate = true` within a single attempt; (b) when the deal is not
visible on the first lookup, the lookup is re-run within the same attempt
budget (here: it succeeds on the second lookup, still during attempt 1);
(c) a thrown error with DUPLICATE type and duplicate-indicating message is
resolved the same way. -/
theorem createDealWithRetry_duplicate_resolution :
    (∀ (env : CreateEnv) (fields : DealFields) (oid : String) (r : BxResp)
        (d : Deal) (rest : List Deal),
      env.add 1 = .inl r →
      optStrTruthy r.result = false →
      optStrTruthy r.error = true →
      (classifyResp r).type = JSVal.vStr "DUPLICATE" →
      env.dupLookup 0 = d :: rest →
      (createDealWithRetry env fields oid 3).1 =
        .ok ⟨true, d.ID, true, 1, env.getDeal d.ID⟩ ∧
      countAdds (createDealWithRetry env fields oid 3).2 = 1) ∧
    (∀ (env : CreateEnv) (fields : DealFields) (oid : String) (r : BxResp)
        (d : Deal) (rest : List Deal),
      env.add 1 = .inl r →
      optStrTruthy r.result = false →
      optStrTruthy r.error = true →
      (classifyResp r).type = JSVal.vStr "DUPLICATE" →
      env.dupLookup 0 = [] →
      env.dupLookup 1 = d :: rest →
      strIncludes (jsToLower ("Failed to create deal: " ++ stringifyResp r))
        "duplicate" = true →
      (createDealWithRetry env fields oid 3).1 =
        .ok ⟨true, d.ID, true, 1, env.getDeal d.ID⟩ ∧
      countAdds (createDealWithRetry env fields oid 3).2 = 1) ∧
    (∀ (env : CreateEnv) (fields : DealFields) (oid : String) (e : JsError)
        (d : Deal) (rest : List Deal),
      env.add 1 = .inr e →
      e.errorType = some "DUPLICATE" →
      strIncludes (jsToLower e.message) "duplicate" = true →
      env.dupLookup 0 = d :: rest →
      (createDealWithRetry env fields oid 3).1 =
        .ok ⟨true, d.ID, true, 1, env.getDeal d.ID⟩ ∧
      countAdds (createDealWithRetry env fields oid 3).2 = 1) := by
  refine ⟨?_, ?_, ?_⟩
  · intro env fields oid r d rest hadd hres herr hty hlk
    have hstep : attemptStep env fields oid 3 1 0 =
        .done (.ok ⟨true, d.ID, true, 1, env.getDeal d.ID⟩)
          [BxCall.dealAdd fields, BxCall.dealList "UF_CRM_1742556489" oid,
            BxCall.dealGet d.ID] := by
      simp only [attemptStep, hadd]
      simp [hres, herr, hty, hlk]
    have hkey : createLoop env fields oid 3 3 1 0 =
        (.ok ⟨true, d.ID, true, 1, env.getDeal d.ID⟩,
          [BxCall.dealAdd fields, BxCall.dealList "UF_CRM_1742556489" oid,
            BxCall.dealGet d.ID]) := by
      show createLoop env fields oid 3 (2 + 1) 1 0 = _
      rw [createLoop_succ, hstep]
    have hdef : createDealWithRetry env fields oid 3 = createLoop env fields oid 3 3 1 0 := rfl
    rw [hdef, hkey]
    exact ⟨rfl, by simp [countAdds]⟩
  · intro env fields oid r d rest hadd hres herr hty hlk0 hlk1 hmsg
    have hu : ("UNKNOWN" : String).isEmpty = false := rfl
    have hnv : ¬(("UNKNOWN" : String) = "VALIDATION" ∨ ("UNKNOWN" : String) = "PERMISSION") := by
      decide
    have hstep : attemptStep env fields oid 3 1 0 =
        .done (.ok ⟨true, d.ID, true, 1, env.getDeal d.ID⟩)
          [BxCall.dealAdd fields, BxCall.dealList "UF_CRM_1742556489" oid,
            BxCall.dealList "UF_CRM_1742556489" oid, BxCall.dealGet d.ID] := by
      simp only [attemptStep, hadd]
      simp [hres, herr, hty, hlk0, catchStep, genericErr, errTypeOf, isDupMessage, hu, hnv, hmsg, hlk1]
    have hkey : createLoop env fields oid 3 3 1 0 =
        (.ok ⟨true, d.ID, true, 1, env.getDeal d.ID⟩,
          [BxCall.dealAdd fields, BxCall.dealList "UF_CRM_1742556489" oid,
            BxCall.dealList "UF_CRM_1742556489" oid, BxCall.dealGet d.ID]) := by
      show createLoop env fields oid 3 (2 + 1) 1 0 = _
      rw [createLoop_succ, hstep]
    have hdef : createDealWithRetry env fields oid 3 = createLoop env fields oid 3 3 1 0 := rfl
    rw [hdef, hkey]
    exact ⟨rfl, by simp [countAdds]⟩
  · intro env fields oid e d rest hadd hty hmsg hlk
    have hu : ("DUPLICATE" : String).isEmpty = false := rfl
    have hnv : ¬(("DUPLICATE" : String) = "VALIDATION" ∨ ("DUPLICATE" : String) = "PERMISSION") := by
      decide
    have hstep : attemptStep env fields oid 3 1 0 =
        .done (.ok ⟨true, d.ID, true, 1, env.getDeal d.ID⟩)
          [BxCall.dealAdd fields, BxCall.dealList "UF_CRM_1742556489" oid,
            BxCall.dealGet d.ID] := by
      simp only [attemptStep, hadd]
      simp [catchStep, errTypeOf, isDupMessage, hty, hu, hnv, hmsg, hlk]
    have hkey : createLoop env fields oid 3 3 1 0 =
        (.ok ⟨true, d.ID, true, 1, env.getDeal d.ID⟩,
          [BxCall.dealAdd fields, BxCall.dealList "UF_CRM_1742556489" oid,
            BxCall.dealGet d.ID]) := by
      show createLoop env fields oid 3 (2 + 1) 1 0 = _
      rw [createLoop_succ, hstep]
    have hdef : createDealWithRetry env fields oid 3 = createLoop env fields oid 3 3 1 0 := rfl
    rw [hdef, hkey]
    exact ⟨rfl, by simp [countAdds]⟩

/-- Witness for C2: the three duplicate environments resolve to the
existing deal 500 with `wasDuplicate = true` in one attempt. -/
theorem createDealWithRetry_duplicate_resolution_witness :
    ((createDealWithRetry wCEnvDupA wFields "100" 3).1 =
      .ok ⟨true, wDeal.ID, true, 1, wCEnvDupA.getDeal wDeal.ID⟩ ∧
      countAdds (createDealWithRetry wCEnvDupA wFields "100" 3).2 = 1) ∧
    ((createDealWithRetry wCEnvDupB wFields "100" 3).1 =
      .ok ⟨true, wDeal.ID, true, 1, wCEnvDupB.getDeal wDeal.ID⟩ ∧
      countAdds (createDealWithRetry wCEnvDupB wFields "100" 3).2 = 1) ∧
    ((createDealWithRetry wCEnvDupC wFields "100" 3).1 =
      .ok ⟨true, wDeal.ID, true, 1, wCEnvDupC.getDeal wDeal.ID⟩ ∧
      countAdds (createDealWithRetry wCEnvDupC wFields "100" 3).2 = 1) :=
  ⟨createDealWithRetry_duplicate_resolution.1 wCEnvDupA wFields "100" wRespDup wDeal []
      rfl rfl rfl (by decide) rfl,
   createDealWithRetry_duplicate_resolution.2.1 wCEnvDupB wFields "100" wRespDup wDeal []
      rfl rfl rfl (by decide) rfl rfl (by decide),
   createDealWithRetry_duplicate_resolution.2.2 wCEnvDupC wFields "100" wDupErr wDeal []
      rfl rfl (by decide) rfl⟩

/-- Helper: the catch block never drops the calls already issued during
the attempt it handles. -/
theorem catchStep_calls (env : CreateEnv) (oid : String) (m a lk : Nat)
    (e : JsError) (calls : List BxCall) (c : BxCall) (hc : c ∈ calls) :
    c ∈ stepCalls (catchStep env oid m a lk e calls) := by
  unfold catchStep
  by_cases h1 : errTypeOf e = "VALIDATION" ∨ errTypeOf e = "PERMISSION"
  · simp [h1, stepCalls, hc]
  · by_cases h2 : isDupMessage e = true
    · cases hdl : env.dupLookup lk with
      | nil => by_cases h3 : a = m <;> simp [h1, h2, h3, hdl, stepCalls, hc]
      | cons d rest => simp [h1, h2, hdl, stepCalls, hc]
    · by_cases h3 : a = m <;> simp [h1, h2, h3, stepCalls, hc]

/-- Helper: every iteration of the retry loop issues its `crm.deal.add`
call, whatever the outcome. -/
theorem attemptStep_calls (env : CreateEnv) (f : DealFields) (oid : String) (m a lk : Nat) :
    BxCall.dealAdd f ∈ stepCalls (attemptStep env f oid m a lk) := by
  unfold attemptStep
  cases env.add a with
  | inr e => exact catchStep_calls env oid m a lk e _ _ (by simp)
  | inl r =>
    by_cases h1 : optStrTruthy r.result = true
    · simp [h1, stepCalls]
    · by_cases h2 : optStrTruthy r.error = true
      · by_cases h3 : (classifyResp r).type = JSVal.vStr "DUPLICATE"
        · cases hdl : env.dupLookup lk with
          | nil =>
            simp only [h1, h2, h3, hdl, if_true, if_pos, Bool.false_eq_true, if_false]
            simp only [Bool.not_eq_true] at h1
            simp [h1]
            exact catchStep_calls _ _ _ _ _ _ _ _ (by simp)
          | cons d rest => simp [h1, h2, h3, hdl, stepCalls]
        · by_cases h4 : (classifyResp r).type = JSVal.vStr "VALIDATION"
          · simp [h1, h2, h3, h4]
            exact catchStep_calls _ _ _ _ _ _ _ _ (by simp)
          · by_cases h5 : (classifyResp r).type = JSVal.vStr "PERMISSION"
            · simp [h1, h2, h3, h4, h5]
              exact catchStep_calls _ _ _ _ _ _ _ _ (by simp)
            · simp [h1, h2, h3, h4, h5]
              exact catchStep_calls _ _ _ _ _ _ _ _ (by simp)
      · simp [h1, h2]
        exact catchStep_calls _ _ _ _ _ _ _ _ (by simp)

/-- Helper: the retry loop issues at least one `crm.deal.add` call when at
least one attempt remains. -/
theorem createLoop_calls (env : CreateEnv) (f : DealFields) (oid : String)
    (m n a lk : Nat) :
    BxCall.dealAdd f ∈ (createLoop env f oid m (n + 1) a lk).2 := by
  rw [createLoop_succ]
  have h := attemptStep_calls env f oid m a lk
  cases hstep : attemptStep env f oid m a lk with
  | done r calls =>
    rw [hstep] at h
    simpa [stepCalls] using h
  | next lk1 calls =>
    rw [hstep] at h
    simp only [stepCalls] at h
    simp [h]

/-- Helper: the creation path issues a `crm.deal.add` call whenever the
mapped TITLE passes validation. -/
theorem createNewDeal_issues_add (env : WebEnv) (order : ShopOrder)
    (htitle : (jsTrim (mapShopifyOrderToBitrixDeal order).1.TITLE).isEmpty = false) :
    BxCall.dealAdd (applyContact env.contact (mapShopifyOrderToBitrixDeal order).1)
      ∈ (createNewDeal env order).2 := by
  have hmem : BxCall.dealAdd (applyContact env.contact (mapShopifyOrderToBitrixDeal order).1)
      ∈ (createDealWithRetry env.toCreateEnv
          (applyContact env.contact (mapShopifyOrderToBitrixDeal order).1) order.id 3).2 :=
    createLoop_calls env.toCreateEnv _ order.id 3 2 1 0
  unfold createNewDeal
  cases hres : (createDealWithRetry env.toCreateEnv
      (applyContact env.contact (mapShopifyOrderToBitrixDeal order).1) order.id 3).1 with
  | error e => simp [htitle, hres, hmem]
  | ok res =>
    by_cases hs : res.success <;>
      by_cases hpr : (mapShopifyOrderToBitrixDeal order).2.isEmpty <;>
      simp [htitle, hres, hs, hpr, hmem]

/-- C1, counterexample: with the lookup finding existing deal 500 but the
`crm.deal.update` call throwing, `handleOrderCreated` swallows the error
(the catch of src/pages/api/webhook/shopify.js line 378 spans the whole
found-deal branch), falls through to the creation path, issues a
`crm.deal.add`, and returns the id 601 of a second deal — refuting
"updates that deal and returns its id without issuing a second create
call" as universally stated. -/
theorem handleOrderCreated_second_create_counterexample :
    wEnvUpdFail.createLookup = .ok [wDeal] ∧
    (handleOrderCreated wEnvUpdFail wOrder).1 = .ok "601" ∧
    BxCall.dealAdd wFields ∈ (handleOrderCreated wEnvUpdFail wOrder).2 := by
  refine ⟨rfl, rfl, ?_⟩
  decide

/-- C1 (amended): when the duplicate-prevention lookup of
`handleOrderCreated` finds an existing deal for the Shopify order id
(cross-reference field UF_CRM_1742556489) and the subsequent
`crm.deal.update` call succeeds, the handler updates that deal and
returns its id without issuing any `crm.deal.add` call, the trace
starting with the cross-reference lookup; when the update call throws,
the surrounding catch swallows the error and the handler falls through to
the creation path, issuing a `crm.deal.add` call (for any order whose
mapped TITLE passes validation) even though a deal already exists. -/
theorem handleOrderCreated_idempotent_amended :
    ∀ (env : WebEnv) (order : ShopOrder) (d : Deal) (ds : List Deal),
      env.createLookup = .ok (d :: ds) →
      (env.update = .ok () →
        (handleOrderCreated env order).1 = .ok d.ID ∧
        (∀ f, BxCall.dealAdd f ∉ (handleOrderCreated env order).2) ∧
        BxCall.dealUpdate d.ID
            (dealFieldsToList (applyContact env.contact (mapShopifyOrderToBitrixDeal order).1))
          ∈ (handleOrderCreated env order).2 ∧
        (handleOrderCreated env order).2.head? =
          some (BxCall.dealList "UF_CRM_1742556489" order.id)) ∧
      (∀ e, env.update = .error e →
        (handleOrderCreated env order).1 = (createNewDeal env order).1 ∧
        ((jsTrim (mapShopifyOrderToBitrixDeal order).1.TITLE).isEmpty = false →
          BxCall.dealAdd (applyContact env.contact (mapShopifyOrderToBitrixDeal order).1)
            ∈ (handleOrderCreated env order).2)) := by
  intro env order d ds hlook
  constructor
  · intro hupd
    refine ⟨?_, ?_, ?_, ?_⟩ <;>
      simp only [handleOrderCreated, hlook, hupd] <;>
      by_cases hpr : (mapShopifyOrderToBitrixDeal order).2.isEmpty <;>
      simp [hpr]
  · intro e hupd
    constructor
    · simp [handleOrderCreated, hlook, hupd]
    · intro htitle
      have hadd := createNewDeal_issues_add env order htitle
      simp [handleOrderCreated, hlook, hupd, hadd]

/-- Witness for the amended C1: with `wEnvFound` the handler returns the
existing deal 500 and issues no create call; with `wEnvUpdFail` (the
update call throws) it falls through to the creation path and issues a
create call. -/
theorem handleOrderCreated_idempotent_amended_witness :
    ((handleOrderCreated wEnvFound wOrder).1 = .ok wDeal.ID ∧
      (∀ f, BxCall.dealAdd f ∉ (handleOrderCreated wEnvFound wOrder).2) ∧
      BxCall.dealUpdate wDeal.ID
          (dealFieldsToList (applyContact wEnvFound.contact (mapShopifyOrderToBitrixDeal wOrder).1))
        ∈ (handleOrderCreated wEnvFound wOrder).2 ∧
      (handleOrderCreated wEnvFound wOrder).2.head? =
        some (BxCall.dealList "UF_CRM_1742556489" wOrder.id)) ∧
    ((handleOrderCreated wEnvUpdFail wOrder).1 = (createNewDeal wEnvUpdFail wOrder).1 ∧
      BxCall.dealAdd (applyContact wEnvUpdFail.contact (mapShopifyOrderToBitrixDeal wOrder).1)
        ∈ (handleOrderCreated wEnvUpdFail wOrder).2) :=
  ⟨(handleOrderCreated_idempotent_amended wEnvFound wOrder wDeal [] rfl).1 rfl,
   ((handleOrderCreated_idempotent_amended wEnvUpdFail wOrder wDeal [] rfl).2 wUpdErr rfl).1,
   ((handleOrderCreated_idempotent_amended wEnvUpdFail wOrder wDeal [] rfl).2 wUpdErr rfl).2
     (by decide)⟩

/-- C5: when the lookup of `handleOrderUpdated` finds no deal for the
Shopify order id, the handler neither errors by itself nor drops the
event: it returns exactly what `handleOrderCreated` returns on the same
order, and in particular the newly created deal's id whenever the create
path succeeds. -/
theorem handleOrderUpdated_fallback_to_create :
    ∀ (env : WebEnv) (order : ShopOrder),
      env.updLookup = .ok [] →
      (handleOrderUpdated env order).1 = (handleOrderCreated env order).1 ∧
      (∀ dealId, (handleOrderCreated env order).1 = .ok dealId →
        (handleOrderUpdated env order).1 = .ok dealId) := by
  intro env order h
  constructor
  · simp [handleOrderUpdated, h]
  · intro dealId hid
    simp [handleOrderUpdated, h, hid]

/-- Witness for C5: with `wEnvNotFound` (both lookups empty, create
succeeds with id 600) the update handler returns the created deal 600. -/
theorem handleOrderUpdated_fallback_to_create_witness :
    (handleOrderUpdated wEnvNotFound wOrder).1 = .ok "600" :=
  (handleOrderUpdated_fallback_to_create wEnvNotFound wOrder rfl).2 "600" rfl

/-- C6: on the update path, an order whose every line item has current
quantity 0 and which has no shipping fee maps to an empty product-row
list, and `handleOrderUpdated` still issues a set-product-rows call with
the empty row list (clearing the rows) instead of skipping the call. -/
theorem handleOrderUpdated_clears_rows :
    ∀ (env : WebEnv) (order : ShopOrder) (d : Deal) (ds : List Deal),
      (∀ it ∈ order.line_items, it.currentQuantity = 0) →
      order.shippingFee.getD 0 = 0 →
      env.updLookup = .ok (d :: ds) →
      env.update = .ok () →
      (mapShopifyOrderToBitrixDeal order).2 = [] ∧
      BxCall.productRowsSet d.ID [] ∈ (handleOrderUpdated env order).2 := by
  intro env order d ds hitems hship hlook hupd
  have hrows : (mapShopifyOrderToBitrixDeal order).2 = [] := by
    have hfilter : order.line_items.filter (fun it => decide (0 < it.currentQuantity)) = [] := by
      rw [List.filter_eq_nil_iff]
      intro a ha
      simp [hitems a ha]
    simp [mapShopifyOrderToBitrixDeal, hfilter, hship]
  refine ⟨hrows, ?_⟩
  simp [handleOrderUpdated, hlook, hupd, hrows]

/-- Witness for C6: the fully refunded fixture order clears the rows of
deal 500. -/
theorem handleOrderUpdated_clears_rows_witness :
    (mapShopifyOrderToBitrixDeal wOrderEmpty).2 = [] ∧
    BxCall.productRowsSet wDeal.ID [] ∈ (handleOrderUpdated wEnvFound wOrderEmpty).2 :=
  handleOrderUpdated_clears_rows wEnvFound wOrderEmpty wDeal []
    (by decide) rfl rfl rfl

/-- C10: when `handleOrderUpdated` finds an existing deal, the field
update it issues is exactly `buildUpdateFields` of the freshly mapped
fields, whose keys are only the amount (OPPORTUNITY), stage, payment
status, order total, paid amount, and — when present in the mapping —
delivery price, delivery method and order type; in particular neither
CATEGORY_ID nor TITLE is ever among the updated keys, so an update leaves
the deal's category and title unchanged. -/
theorem handleOrderUpdated_field_frame :
    (∀ (env : WebEnv) (order : ShopOrder) (d : Deal) (ds : List Deal),
      env.updLookup = .ok (d :: ds) →
      ∃ tr, (handleOrderUpdated env order).2 =
        BxCall.dealList "UF_CRM_1742556489" order.id ::
          BxCall.dealUpdate d.ID
            (buildUpdateFields (mapShopifyOrderToBitrixDeal order).1) :: tr) ∧
    (∀ mf : DealFields,
      "CATEGORY_ID" ∉ (buildUpdateFields mf).map Prod.fst ∧
      "TITLE" ∉ (buildUpdateFields mf).map Prod.fst ∧
      (∀ k ∈ (buildUpdateFields mf).map Prod.fst,
        k ∈ (["OPPORTUNITY", "STAGE_ID", "UF_CRM_1739183959976",
          "UF_CRM_1741634415367", "UF_CRM_1741634439258", "UF_CRM_67BEF8B2AA721",
          "UF_CRM_1739183302609", "UF_CRM_1739183268662"] : List String)) ∧
      "OPPORTUNITY" ∈ (buildUpdateFields mf).map Prod.fst ∧
      "STAGE_ID" ∈ (buildUpdateFields mf).map Prod.fst ∧
      "UF_CRM_1739183959976" ∈ (buildUpdateFields mf).map Prod.fst ∧
      "UF_CRM_1741634415367" ∈ (buildUpdateFields mf).map Prod.fst ∧
      "UF_CRM_1741634439258" ∈ (buildUpdateFields mf).map Prod.fst ∧
      ("UF_CRM_67BEF8B2AA721" ∈ (buildUpdateFields mf).map Prod.fst ↔
        mf.UF_CRM_67BEF8B2AA721.isSome = true) ∧
      ("UF_CRM_1739183302609" ∈ (buildUpdateFields mf).map Prod.fst ↔
        optStrTruthy mf.UF_CRM_1739183302609 = true) ∧
      ("UF_CRM_1739183268662" ∈ (buildUpdateFields mf).map Prod.fst ↔
        optStrTruthy mf.UF_CRM_1739183268662 = true)) := by
  constructor
  · intro env order d ds hlook
    cases hupd : env.update with
    | error e => exact ⟨[], by simp [handleOrderUpdated, hlook, hupd]⟩
    | ok u =>
      by_cases hpr : (mapShopifyOrderToBitrixDeal order).2.isEmpty
      · exact ⟨[BxCall.dealGet d.ID, BxCall.productRowsSet d.ID []],
          by simp [handleOrderUpdated, hlook, hupd, hpr]⟩
      · exact ⟨[BxCall.dealGet d.ID,
          BxCall.productRowsSet d.ID (mapShopifyOrderToBitrixDeal order).2],
          by simp [handleOrderUpdated, hlook, hupd, hpr]⟩
  · intro mf
    by_cases h302 : optStrTruthy mf.UF_CRM_1739183302609 <;>
    by_cases h268 : optStrTruthy mf.UF_CRM_1739183268662 <;>
    cases h67 : mf.UF_CRM_67BEF8B2AA721 <;>
      refine ⟨?_, ?_, ?_, ?_, ?_, ?_, ?_, ?_, ?_, ?_, ?_⟩ <;>
      simp [buildUpdateFields, h302, h268, h67]

/-- Witness for C10: the update call issued for the fixture order and
deal, and the key frame for its mapped fields. -/
theorem handleOrderUpdated_field_frame_witness :
    (∃ tr, (handleOrderUpdated wEnvFound wOrder).2 =
      BxCall.dealList "UF_CRM_1742556489" wOrder.id ::
        BxCall.dealUpdate wDeal.ID
          (buildUpdateFields (mapShopifyOrderToBitrixDeal wOrder).1) :: tr) ∧
    "CATEGORY_ID" ∉ (buildUpdateFields wFields).map Prod.fst ∧
    "TITLE" ∉ (buildUpdateFields wFields).map Prod.fst :=
  ⟨handleOrderUpdated_field_frame.1 wEnvFound wOrder wDeal [] rfl,
   (handleOrderUpdated_field_frame.2 wFields).1,
   (handleOrderUpdated_field_frame.2 wFields).2.1⟩

end Spec2Proof
